import Mathlib

/-!
Verification of the icon export pipeline in `src/generate_icons.py`.

The script is a linear batch conversion: it decodes one source image,
resizes it to a fixed manifest of target dimensions, writes PNG / ICO
outputs into two destination directories, populates a temporary macOS
iconset directory, invokes the external `iconutil` tool, and removes the
temporary directory.

Shallow embedding choices:
- A filesystem path is a pair `(directory, basename)`; the script only
  ever builds paths with `os.path.join(dir, name)`, which this mirrors.
- The filesystem is a list of `(path, data)` files plus a list of
  existing directory names.
- An image is its pixel dimensions, a channel mode and an abstract
  content token; the imaging backend (Pillow) is modelled by the
  semantics the script relies on: `resize` returns an image of exactly
  the requested dimensions, deterministically derived from the source,
  and `save` encodes deterministically (file data is kept structured:
  a PNG records its image, an ICO records its image and embedded frame
  sizes, an ICNS records the iconset entries it was compiled from).
- The `subprocess.run(["iconutil", ...], check=True)` call is
  parameterised by its outcome: success, `CalledProcessError`
  (non-zero exit), or `FileNotFoundError` (binary missing), matching
  the two `except` clauses in the source.
-/

/-- Channel layout of a decoded raster, as far as the script observes it:
`convert("RGBA")` normalises any mode to RGBA. -/
inductive Mode where
  | RGBA
  | other
deriving DecidableEq, Repr

/-- A decoded in-memory raster: pixel width, pixel height, channel mode and
an abstract content token standing for the pixel data. -/
structure Image where
  width : Nat
  height : Nat
  mode : Mode
  content : Nat
deriving DecidableEq, Repr

/-- Pillow `Image.resize(size, LANCZOS)` as used on line 26 and line 57 of the
source: the result has exactly the requested dimensions and is a
deterministic function of the source image and the target size. -/
def Image.resize (img : Image) (size : Nat × Nat) : Image :=
  { width := size.1, height := size.2, mode := img.mode, content := img.content }

/-- Pillow `convert("RGBA")` (line 11): normalises the channel layout and
keeps the dimensions. -/
def Image.convertRGBA (img : Image) : Image :=
  { img with mode := Mode.RGBA }

/-- Structured file contents. A PNG save records the saved image; an ICO save
records the image and the list of embedded frame sizes passed to Pillow; an
ICNS records the named iconset entries `iconutil` compiled it from; `raw` is
any other file content (e.g. a non-image source file). -/
inductive FileData where
  | png : Image → FileData
  | ico : Image → List (Nat × Nat) → FileData
  | icns : List (String × Image) → FileData
  | raw : List Nat → FileData
deriving DecidableEq, Repr

/-- `PIL.Image.open` on a file: PNG and ICO contents decode to their image;
anything else is not decodable (the script would raise, unhandled). -/
def FileData.decode : FileData → Option Image
  | .png i => some i
  | .ico i _ => some i
  | _ => none

/-- The embedded frame sizes of a stored file: for an ICO, the sizes list it
was saved with; a PNG has a single frame at its own dimensions. -/
def FileData.frameSizes : FileData → List (Nat × Nat)
  | .png i => [(i.width, i.height)]
  | .ico _ s => s
  | .icns es => es.map (fun e => (e.2.width, e.2.height))
  | .raw _ => []

/-- A filesystem path, structured as `(directory, basename)`: the script only
forms paths via `os.path.join(dir, name)`. -/
abbrev FPath := String × String

/-- Rendering of a path for console messages. -/
def pathStr (p : FPath) : String := p.1 ++ "/" ++ p.2

/-- Filesystem state: the files (each path bound at most once) and the set of
existing directories. -/
structure FS where
  files : List (FPath × FileData)
  dirs : List String
deriving DecidableEq, Repr

/-- `os.path.exists` on a file path. -/
def FS.pathExists (fs : FS) (p : FPath) : Bool :=
  fs.files.any (fun e => e.1 = p)

/-- Read the file stored at `p`, if any. -/
def FS.readFile (fs : FS) (p : FPath) : Option FileData :=
  (fs.files.find? (fun e => e.1 = p)).map (fun e => e.2)

/-- `img.save(path)`: create or overwrite the file at `p`. -/
def FS.writeFile (fs : FS) (p : FPath) (d : FileData) : FS :=
  { fs with files := (p, d) :: fs.files.filter (fun e => e.1 ≠ p) }

/-- `os.makedirs(d, exist_ok=True)`: create the directory if absent, no-op if
it already exists. -/
def FS.makedirs (fs : FS) (d : String) : FS :=
  if fs.dirs.contains d then fs else { fs with dirs := d :: fs.dirs }

/-- `shutil.rmtree(d)`: remove the directory and every file inside it. -/
def FS.rmtree (fs : FS) (d : String) : FS :=
  { files := fs.files.filter (fun e => e.1.1 ≠ d),
    dirs := fs.dirs.filter (fun x => x ≠ d) }

/-- The files lying in directory `d`. -/
def FS.filesUnder (fs : FS) (d : String) : List (FPath × FileData) :=
  fs.files.filter (fun e => e.1.1 = d)

/-- The flat PNG manifest of the script (lines 18–23): output file name to
target (width, height). -/
def sizes : List (String × (Nat × Nat)) :=
  [("32x32.png", (32, 32)),
   ("128x128.png", (128, 128)),
   ("128x128@2x.png", (256, 256)),
   ("icon.png", (512, 512))]

/-- Embedded frame sizes of `icon.ico` (line 31). -/
def icoSizes : List (Nat × Nat) :=
  [(256, 256), (128, 128), (64, 64), (48, 48), (32, 32), (16, 16)]

/-- Embedded frame sizes of `favicon.ico` (line 35). -/
def faviconSizes : List (Nat × Nat) :=
  [(48, 48), (32, 32), (16, 16)]

/-- Name of the temporary macOS iconset working directory (line 40), relative
to the process working directory. -/
def iconset_dir : String := "ProjectLens.iconset"

/-- The macOS iconset manifest (lines 43–54): Apple iconset entry name to
target (width, height). -/
def iconset_sizes : List (String × (Nat × Nat)) :=
  [("icon_16x16.png", (16, 16)),
   ("icon_16x16@2x.png", (32, 32)),
   ("icon_32x32.png", (32, 32)),
   ("icon_32x32@2x.png", (64, 64)),
   ("icon_128x128.png", (128, 128)),
   ("icon_128x128@2x.png", (256, 256)),
   ("icon_256x256.png", (256, 256)),
   ("icon_256x256@2x.png", (512, 512)),
   ("icon_512x512.png", (512, 512)),
   ("icon_512x512@2x.png", (1024, 1024))]

/-- One iteration of a resize-and-save loop (lines 25–27 and 56–58): resample
the source to the entry's size and save it as a PNG under `dir`. -/
def writeResized (img : Image) (dir : String) (fs : FS) (entry : String × (Nat × Nat)) : FS :=
  fs.writeFile (dir, entry.1) (FileData.png (img.resize entry.2))

/-- A whole resize-and-save loop over a manifest. -/
def writePngManifest (img : Image) (dir : String) (manifest : List (String × (Nat × Nat))) (fs : FS) : FS :=
  manifest.foldl (writeResized img dir) fs

/-- The loop on lines 56–58 populating the iconset working directory. -/
def populateIconset (img : Image) (fs : FS) : FS :=
  writePngManifest img iconset_dir iconset_sizes fs

/-- The named PNG entries inside the iconset directory, as `iconutil`
consumes them. -/
def iconsetImages (fs : FS) : List (String × Image) :=
  (fs.filesUnder iconset_dir).filterMap
    (fun e => match e.2 with
      | .png i => some (e.1.2, i)
      | _ => none)

/-- Outcome of the `subprocess.run(["iconutil", ...], check=True)` call
(lines 61–67): success, non-zero exit (`CalledProcessError`), or binary
missing (`FileNotFoundError`). -/
inductive IconutilStatus where
  | success
  | calledProcessError
  | fileNotFoundError
deriving DecidableEq, Repr

/-- How a run of `generate_icons` ended: early return on missing source,
unhandled decode exception, or normal completion (recording how the
`iconutil` step went). -/
inductive Outcome where
  | sourceNotFound
  | decodeError
  | completed : IconutilStatus → Outcome
deriving DecidableEq, Repr

/-- Result of a run: final filesystem, console log, and outcome. -/
structure RunResult where
  fs : FS
  log : List String
  outcome : Outcome
deriving DecidableEq, Repr

/-- The script's `generate_icons(source_path, tauri_icons_dir, public_dir)`
(lines 6–71), parameterised by the behaviour of the external `iconutil`
invocation. Steps, in source order: existence check and early return;
decode and RGBA conversion; create both destination directories; flat PNG
loop; `icon.ico`; `favicon.ico`; create and populate the iconset directory;
`iconutil` under `try/except`; `shutil.rmtree` of the iconset directory. -/
def generate_icons (env : IconutilStatus) (fs0 : FS) (source_path : FPath)
    (tauri_icons_dir public_dir : String) : RunResult :=
  if fs0.pathExists source_path = false then
    { fs := fs0,
      log := ["Error: Source file not found at " ++ pathStr source_path],
      outcome := Outcome.sourceNotFound }
  else
    match (fs0.readFile source_path).bind FileData.decode with
    | none => { fs := fs0, log := [], outcome := Outcome.decodeError }
    | some img0 =>
      let img := img0.convertRGBA
      let fs1 := (fs0.makedirs tauri_icons_dir).makedirs public_dir
      let fs2 := writePngManifest img tauri_icons_dir sizes fs1
      let fs3 := fs2.writeFile (tauri_icons_dir, "icon.ico") (FileData.ico img icoSizes)
      let fs4 := fs3.writeFile (public_dir, "favicon.ico") (FileData.ico img faviconSizes)
      let fs5 := fs4.makedirs iconset_dir
      let fs6 := populateIconset img fs5
      let step7 : FS × List String :=
        match env with
        | IconutilStatus.success =>
          (fs6.writeFile (tauri_icons_dir, "icon.icns") (FileData.icns (iconsetImages fs6)),
           ["Generated icon.icns"])
        | IconutilStatus.calledProcessError =>
          (fs6, ["Error generating icns: CalledProcessError"])
        | IconutilStatus.fileNotFoundError =>
          (fs6, ["iconutil not found, skipping icns generation (are you on macOS?)"])
      let fs7 := step7.1.rmtree iconset_dir
      { fs := fs7,
        log := (sizes.map (fun e => "Generated " ++ e.1)) ++
          ["Generated icon.ico", "Generated favicon.ico"] ++ step7.2 ++
          ["Cleaned up iconset directory"],
        outcome := Outcome.completed env }

/-- Whether a directory exists in the filesystem. -/
def FS.dirExists (fs : FS) (d : String) : Bool :=
  fs.dirs.contains d

/-- If every element the search predicate accepts is kept by the filter, the
filter does not change the result of `find?`. -/
theorem find?_filter_keep {α : Type} (pr q : α → Bool) (l : List α)
    (h : ∀ a, pr a = true → q a = true) :
    (l.filter q).find? pr = l.find? pr := by
  induction l with
  | nil => rfl
  | cons a l ih =>
    by_cases hq : q a = true
    · by_cases hpr : pr a = true
      · simp [List.filter_cons, List.find?, hq, hpr]
      · simp [List.filter_cons, List.find?, hq, hpr, ih]
    · have hpr : pr a = false := by
        cases hpa : pr a
        · rfl
        · exact absurd (h a hpa) hq
      simp [List.filter_cons, List.find?, hq, hpr, ih]

theorem FS.readFile_writeFile_same (fs : FS) (p : FPath) (d : FileData) :
    (fs.writeFile p d).readFile p = some d := by
  simp [FS.writeFile, FS.readFile, List.find?]

theorem FS.readFile_writeFile_ne (fs : FS) (p q : FPath) (d : FileData) (h : q ≠ p) :
    (fs.writeFile p d).readFile q = fs.readFile q := by
  unfold FS.writeFile FS.readFile
  have hhead : (decide ((p, d).1 = q)) = false := by
    simp only [decide_eq_false_iff_not]
    exact fun hc => h hc.symm
  rw [List.find?_cons_of_neg _ (by simpa using hhead)]
  rw [find?_filter_keep _ _ _ (fun a ha => by
    simp only [decide_eq_true_eq] at ha
    simp only [decide_eq_true_eq, ne_eq]
    rw [ha]
    exact h)]

theorem FS.readFile_makedirs (fs : FS) (d : String) (q : FPath) :
    (fs.makedirs d).readFile q = fs.readFile q := by
  unfold FS.makedirs
  split <;> rfl

theorem FS.readFile_rmtree_ne (fs : FS) (d : String) (q : FPath) (h : q.1 ≠ d) :
    (fs.rmtree d).readFile q = fs.readFile q := by
  unfold FS.rmtree FS.readFile
  rw [find?_filter_keep _ _ _ (fun a ha => by
    simp only [decide_eq_true_eq] at ha
    simp only [decide_eq_true_eq, ne_eq]
    rw [ha]
    exact h)]

theorem FS.readFile_none_of_filesUnder_nil (fs : FS) (t n : String)
    (h : fs.filesUnder t = []) : fs.readFile (t, n) = none := by
  unfold FS.filesUnder at h
  unfold FS.readFile
  rw [List.find?_eq_none.mpr, Option.map_none']
  intro a ha hc
  have h2 := List.filter_eq_nil_iff.mp h a ha
  simp only [decide_eq_true_eq] at hc h2
  exact h2 (by rw [hc])

theorem FS.pathExists_of_readFile_some (fs : FS) (p : FPath) (d : FileData)
    (h : fs.readFile p = some d) : fs.pathExists p = true := by
  unfold FS.readFile at h
  unfold FS.pathExists
  cases hf : fs.files.find? (fun e => decide (e.1 = p)) with
  | none => rw [hf] at h; simp at h
  | some e =>
    have hpred := List.find?_some hf
    exact List.any_eq_true.mpr ⟨e, List.mem_of_find?_eq_some hf, hpred⟩

theorem FS.filesUnder_rmtree_self (fs : FS) (d : String) :
    (fs.rmtree d).filesUnder d = [] := by
  unfold FS.rmtree FS.filesUnder
  rw [List.filter_filter]
  exact List.filter_eq_nil_iff.mpr (fun a _ => by
    simp only [Bool.and_eq_true, decide_eq_true_eq, ne_eq]
    exact fun hc => hc.2 hc.1)

theorem FS.dirExists_rmtree_self (fs : FS) (d : String) :
    (fs.rmtree d).dirExists d = false := by
  unfold FS.rmtree FS.dirExists
  by_contra hc
  have hmem : d ∈ fs.dirs.filter (fun x => decide (x ≠ d)) :=
    List.elem_iff.mp (Bool.of_not_eq_false hc)
  have := (List.mem_filter.mp hmem).2
  simp at this

/-- The filesystem just after the iconset directory has been populated
(end of line 58), for a completed run on converted image `img`: both
destination directories created, the four flat PNGs, `icon.ico` and
`favicon.ico` written, the iconset directory created and populated. -/
def midFS (fs0 : FS) (img : Image) (t p : String) : FS :=
  populateIconset img
    ((((writePngManifest img t sizes ((fs0.makedirs t).makedirs p)).writeFile
        (t, "icon.ico") (FileData.ico img icoSizes)).writeFile
        (p, "favicon.ico") (FileData.ico img faviconSizes)).makedirs iconset_dir)

/-- The final filesystem of a completed run: `midFS`, then the `iconutil`
step (which writes `icon.icns` exactly when it succeeds), then the
unconditional `rmtree` of the iconset directory. -/
def finalFS (env : IconutilStatus) (fs0 : FS) (img : Image) (t p : String) : FS :=
  match env with
  | IconutilStatus.success =>
    ((midFS fs0 img t p).writeFile (t, "icon.icns")
      (FileData.icns (iconsetImages (midFS fs0 img t p)))).rmtree iconset_dir
  | _ => (midFS fs0 img t p).rmtree iconset_dir

/-- The console log of a completed run. -/
def runLog (env : IconutilStatus) : List String :=
  (sizes.map (fun e => "Generated " ++ e.1)) ++
  ["Generated icon.ico", "Generated favicon.ico"] ++
  (match env with
   | IconutilStatus.success => ["Generated icon.icns"]
   | IconutilStatus.calledProcessError => ["Error generating icns: CalledProcessError"]
   | IconutilStatus.fileNotFoundError =>
     ["iconutil not found, skipping icns generation (are you on macOS?)"]) ++
  ["Cleaned up iconset directory"]

/-- Shape of a completed run: with an existing, decodable source, the run is
exactly the operation chain of lines 11–71 applied to the converted image. -/
theorem generate_icons_run (env : IconutilStatus) (fs0 : FS) (s : FPath)
    (t p : String) (img0 : Image)
    (hex : fs0.pathExists s = true)
    (hdec : (fs0.readFile s).bind FileData.decode = some img0) :
    generate_icons env fs0 s t p =
      { fs := finalFS env fs0 img0.convertRGBA t p,
        log := runLog env,
        outcome := Outcome.completed env } := by
  unfold generate_icons
  rw [hex, if_neg (by decide), hdec]
  cases env <;> rfl

/-- Reading a path after a resize-and-save loop: the latest manifest entry
whose target path matches wins, otherwise the loop leaves the path alone. -/
theorem readFile_writePngManifest (img : Image) (dir : String)
    (manifest : List (String × (Nat × Nat))) (fs : FS) (q : FPath) :
    (writePngManifest img dir manifest fs).readFile q =
      match manifest.reverse.find? (fun e => (dir, e.1) = q) with
      | some e => some (FileData.png (img.resize e.2))
      | none => fs.readFile q := by
  induction manifest generalizing fs with
  | nil => rfl
  | cons e rest ih =>
    show (writePngManifest img dir rest (writeResized img dir fs e)).readFile q = _
    rw [ih, List.reverse_cons, List.find?_append]
    cases hf : rest.reverse.find? (fun x => decide ((dir, x.1) = q)) with
    | some e1 => rfl
    | none =>
      by_cases hq : (dir, e.1) = q
      · have hpred : (decide ((dir, e.1) = q)) = true := decide_eq_true hq
        simp only [List.find?, hpred, cond_true, Option.none_or]
        show (writeResized img dir fs e).readFile q = some (FileData.png (img.resize e.2))
        unfold writeResized
        rw [← hq, FS.readFile_writeFile_same]
      · have hpred : (decide ((dir, e.1) = q)) = false := decide_eq_false hq
        simp only [List.find?, hpred, cond_false, Option.none_or]
        show (writeResized img dir fs e).readFile q = fs.readFile q
        unfold writeResized
        exact FS.readFile_writeFile_ne _ _ _ _ (fun hc => hq hc.symm)

/-- A resize-and-save loop into `dir` does not touch paths outside `dir`. -/
theorem readFile_writePngManifest_ne (img : Image) (dir : String)
    (manifest : List (String × (Nat × Nat))) (fs : FS) (q : FPath)
    (h : q.1 ≠ dir) :
    (writePngManifest img dir manifest fs).readFile q = fs.readFile q := by
  rw [readFile_writePngManifest]
  rw [List.find?_eq_none.mpr]
  intro e _ hc
  simp only [decide_eq_true_eq] at hc
  exact h (by rw [← hc])

/-- C1: if the source path does not exist, `generate_icons` reports the
not-found error and returns at once: the filesystem is unchanged (so no file
is created in either destination directory) and nothing else is logged. -/
theorem c1_source_not_found (env : IconutilStatus) (fs0 : FS)
    (s : FPath) (t p : String) (h : fs0.pathExists s = false) :
    generate_icons env fs0 s t p =
      { fs := fs0,
        log := ["Error: Source file not found at " ++ pathStr s],
        outcome := Outcome.sourceNotFound } := by
  unfold generate_icons
  rw [h, if_pos rfl]

theorem c1_witness :
    (FS.mk [] []).pathExists ("assets", "logo.png") = false ∧
    generate_icons IconutilStatus.success (FS.mk [] []) ("assets", "logo.png") "icons" "public" =
      { fs := FS.mk [] [],
        log := ["Error: Source file not found at " ++ pathStr ("assets", "logo.png")],
        outcome := Outcome.sourceNotFound } :=
  ⟨by decide, c1_source_not_found IconutilStatus.success (FS.mk [] [])
    ("assets", "logo.png") "icons" "public" (by decide)⟩

/-- C2: for any decodable source, each PNG written by the flat-manifest loop
is stored at its manifest name with pixel dimensions exactly equal to its
manifest entry: `32x32.png` is 32×32, `128x128.png` is 128×128,
`128x128@2x.png` is 256×256 and `icon.png` is 512×512. -/
theorem c2_png_dimensions (env : IconutilStatus) (fs0 : FS) (s : FPath)
    (t p : String) (img0 : Image)
    (hex : fs0.pathExists s = true)
    (hdec : (fs0.readFile s).bind FileData.decode = some img0)
    (ht : t ≠ iconset_dir) :
    ∀ e ∈ sizes,
      (generate_icons env fs0 s t p).fs.readFile (t, e.1) =
        some (FileData.png (img0.convertRGBA.resize e.2)) ∧
      (img0.convertRGBA.resize e.2).width = e.2.1 ∧
      (img0.convertRGBA.resize e.2).height = e.2.2 := by
  intro e he
  rw [generate_icons_run env fs0 s t p img0 hex hdec]
  simp only [sizes, List.mem_cons, List.not_mem_nil, or_false] at he
  rcases he with rfl | rfl | rfl | rfl <;>
  · refine ⟨?_, rfl, rfl⟩
    cases env <;>
    · unfold finalFS
      first
      | rw [FS.readFile_rmtree_ne _ _ _ ht,
          FS.readFile_writeFile_ne _ _ _ _ (by simp),
          ]
      | rw [FS.readFile_rmtree_ne _ _ _ ht]
      unfold midFS populateIconset
      rw [readFile_writePngManifest_ne _ _ _ _ _ ht,
        FS.readFile_makedirs,
        FS.readFile_writeFile_ne _ _ _ _ (by simp),
        FS.readFile_writeFile_ne _ _ _ _ (by simp),
        readFile_writePngManifest]
      simp [sizes, List.find?]

/-- A square 1024×1024 sample source image used to instantiate theorems. -/
def sampleImage : Image :=
  { width := 1024, height := 1024, mode := Mode.other, content := 7 }

/-- A sample starting filesystem holding only the source file. -/
def sampleFS : FS :=
  { files := [((("assets", "logo.png") : FPath), FileData.png sampleImage)], dirs := [] }

theorem c2_witness :
    sampleFS.pathExists ("assets", "logo.png") = true ∧
    (sampleFS.readFile ("assets", "logo.png")).bind FileData.decode = some sampleImage ∧
    ("icons" : String) ≠ iconset_dir ∧
    ∀ e ∈ sizes,
      (generate_icons IconutilStatus.success sampleFS ("assets", "logo.png")
        "icons" "public").fs.readFile ("icons", e.1) =
        some (FileData.png (sampleImage.convertRGBA.resize e.2)) ∧
      (sampleImage.convertRGBA.resize e.2).width = e.2.1 ∧
      (sampleImage.convertRGBA.resize e.2).height = e.2.2 :=
  ⟨by decide, by decide, by decide,
    c2_png_dimensions IconutilStatus.success sampleFS ("assets", "logo.png")
      "icons" "public" sampleImage (by decide) (by decide) (by decide)⟩

/-- Reading a basename `n` in the icon destination directory from the final
filesystem of a completed run: `icon.icns` when `iconutil` succeeded,
`icon.ico`, the flat-manifest PNGs, and otherwise whatever the starting
filesystem held there. -/
theorem finalFS_readFile_t (env : IconutilStatus) (fs0 : FS) (img : Image)
    (t p n : String) (ht : t ≠ iconset_dir) (htp : t ≠ p) :
    (finalFS env fs0 img t p).readFile (t, n) =
      if env = IconutilStatus.success ∧ n = "icon.icns" then
        some (FileData.icns (iconsetImages (midFS fs0 img t p)))
      else if n = "icon.ico" then some (FileData.ico img icoSizes)
      else
        match sizes.reverse.find? (fun e => e.1 = n) with
        | some e => some (FileData.png (img.resize e.2))
        | none => fs0.readFile (t, n) := by
  have hmid : (midFS fs0 img t p).readFile (t, n) =
      if n = "icon.ico" then some (FileData.ico img icoSizes)
      else
        match sizes.reverse.find? (fun e => e.1 = n) with
        | some e => some (FileData.png (img.resize e.2))
        | none => fs0.readFile (t, n) := by
    unfold midFS populateIconset
    rw [readFile_writePngManifest_ne _ _ _ _ _ ht,
      FS.readFile_makedirs,
      FS.readFile_writeFile_ne _ _ _ _ (fun hc => htp (congrArg Prod.fst hc))]
    by_cases h2 : n = "icon.ico"
    · subst h2
      rw [FS.readFile_writeFile_same, if_pos rfl]
    · rw [FS.readFile_writeFile_ne _ _ _ _ (fun hc => h2 (congrArg Prod.snd hc)),
        if_neg h2, readFile_writePngManifest]
      have hpred : (fun (e : String × Nat × Nat) => decide ((t, e.1) = (t, n))) =
          (fun e => decide (e.1 = n)) := by
        funext e
        simp [Prod.ext_iff]
      rw [hpred]
      cases hf : sizes.reverse.find? (fun e => decide (e.1 = n)) with
      | some e => rfl
      | none => rw [FS.readFile_makedirs, FS.readFile_makedirs]
  cases env with
  | success =>
    unfold finalFS
    by_cases h1 : n = "icon.icns"
    · subst h1
      rw [FS.readFile_rmtree_ne _ _ _ ht, FS.readFile_writeFile_same,
        if_pos ⟨rfl, rfl⟩]
    · rw [if_neg (fun hc => h1 hc.2),
        FS.readFile_rmtree_ne _ _ _ ht,
        FS.readFile_writeFile_ne _ _ _ _ (fun hc => h1 (congrArg Prod.snd hc)),
        hmid]
  | calledProcessError =>
    unfold finalFS
    rw [if_neg (fun hc => IconutilStatus.noConfusion hc.1),
      FS.readFile_rmtree_ne _ _ _ ht, hmid]
  | fileNotFoundError =>
    unfold finalFS
    rw [if_neg (fun hc => IconutilStatus.noConfusion hc.1),
      FS.readFile_rmtree_ne _ _ _ ht, hmid]

/-- Reading a basename `n` in the web destination directory from the final
filesystem of a completed run: `favicon.ico`, and otherwise whatever the
starting filesystem held there. -/
theorem finalFS_readFile_p (env : IconutilStatus) (fs0 : FS) (img : Image)
    (t p n : String) (hp : p ≠ iconset_dir) (htp : t ≠ p) :
    (finalFS env fs0 img t p).readFile (p, n) =
      if n = "favicon.ico" then some (FileData.ico img faviconSizes)
      else fs0.readFile (p, n) := by
  have hmid : (midFS fs0 img t p).readFile (p, n) =
      if n = "favicon.ico" then some (FileData.ico img faviconSizes)
      else fs0.readFile (p, n) := by
    unfold midFS populateIconset
    rw [readFile_writePngManifest_ne _ _ _ _ _ hp,
      FS.readFile_makedirs]
    by_cases h1 : n = "favicon.ico"
    · subst h1
      rw [FS.readFile_writeFile_same, if_pos rfl]
    · rw [FS.readFile_writeFile_ne _ _ _ _ (fun hc => h1 (congrArg Prod.snd hc)),
        FS.readFile_writeFile_ne _ _ _ _ (fun hc => htp (congrArg Prod.fst hc).symm),
        readFile_writePngManifest_ne _ _ _ _ _ (fun hc => htp hc.symm),
        FS.readFile_makedirs, FS.readFile_makedirs, if_neg h1]
  cases env with
  | success =>
    unfold finalFS
    rw [FS.readFile_rmtree_ne _ _ _ hp,
      FS.readFile_writeFile_ne _ _ _ _ (fun hc => htp (congrArg Prod.fst hc).symm),
      hmid]
  | calledProcessError =>
    unfold finalFS
    rw [FS.readFile_rmtree_ne _ _ _ hp, hmid]
  | fileNotFoundError =>
    unfold finalFS
    rw [FS.readFile_rmtree_ne _ _ _ hp, hmid]

theorem FS.readFile_rmtree_self (fs : FS) (d : String) (n : String) :
    (fs.rmtree d).readFile (d, n) = none :=
  FS.readFile_none_of_filesUnder_nil _ _ _ (FS.filesUnder_rmtree_self fs d)

/-- C3 counterexample: the ten iconset targets map to seven distinct pixel
sizes (16, 32, 64, 128, 256, 512, 1024), not six as the claim states. -/
theorem c3_counterexample :
    (iconset_sizes.map (fun e => e.2.1)).dedup = [16, 32, 64, 128, 256, 512, 1024] ∧
    ¬ (iconset_sizes.map (fun e => e.2.1)).dedup.length = 6 := by
  decide

/-- C3 (amended): the iconset working directory is populated with exactly the
ten resampled PNGs of the Apple iconset naming convention (five logical sizes
each in 1× and 2× variants), whose target dimensions map to seven distinct
pixel sizes 16, 32, 64, 128, 256, 512, 1024; in particular the 32×32 resample
size is used for both `icon_16x16@2x.png` and `icon_32x32.png`, and the
512×512 size for `icon_256x256@2x.png`. -/
theorem c3_iconset_population (img : Image) (fs : FS)
    (h : fs.filesUnder iconset_dir = []) :
    (∀ n : String,
      (((populateIconset img fs).readFile (iconset_dir, n)).isSome = true) ↔
        n ∈ iconset_sizes.map (fun e => e.1)) ∧
    (∀ e ∈ iconset_sizes,
      (populateIconset img fs).readFile (iconset_dir, e.1) =
        some (FileData.png (img.resize e.2))) ∧
    iconset_sizes.length = 10 ∧
    iconset_sizes.map (fun e => e.1) =
      ["icon_16x16.png", "icon_16x16@2x.png", "icon_32x32.png",
       "icon_32x32@2x.png", "icon_128x128.png", "icon_128x128@2x.png",
       "icon_256x256.png", "icon_256x256@2x.png", "icon_512x512.png",
       "icon_512x512@2x.png"] ∧
    (iconset_sizes.map (fun e => e.2.1)).dedup = [16, 32, 64, 128, 256, 512, 1024] ∧
    (iconset_sizes.find? (fun e => e.1 = "icon_16x16@2x.png")).map (fun e => e.2) =
      some (32, 32) ∧
    (iconset_sizes.find? (fun e => e.1 = "icon_32x32.png")).map (fun e => e.2) =
      some (32, 32) ∧
    (iconset_sizes.find? (fun e => e.1 = "icon_256x256@2x.png")).map (fun e => e.2) =
      some (512, 512) := by
  refine ⟨?_, ?_, by decide, by decide, by decide, by decide, by decide, by decide⟩
  · intro n
    show ((writePngManifest img iconset_dir iconset_sizes fs).readFile
      (iconset_dir, n)).isSome = true ↔ _
    rw [readFile_writePngManifest]
    cases hf : iconset_sizes.reverse.find?
        (fun e => decide ((iconset_dir, e.1) = (iconset_dir, n))) with
    | some e =>
      simp only [Option.isSome_some, true_iff]
      have hmem := List.mem_of_find?_eq_some hf
      have hpred := List.find?_some hf
      simp only [decide_eq_true_eq, Prod.mk.injEq, true_and] at hpred
      rw [List.mem_reverse] at hmem
      exact List.mem_map.mpr ⟨e, hmem, hpred⟩
    | none =>
      rw [FS.readFile_none_of_filesUnder_nil _ _ _ h]
      simp only [Option.isSome_none, Bool.false_eq_true, false_iff]
      intro hn
      obtain ⟨e, he, hen⟩ := List.mem_map.mp hn
      have hne := List.find?_eq_none.mp hf e (List.mem_reverse.mpr he)
      simp only [decide_eq_true_eq, Prod.mk.injEq, true_and] at hne
      exact hne hen
  · intro e he
    simp only [iconset_sizes, List.mem_cons, List.not_mem_nil, or_false] at he
    show (writePngManifest img iconset_dir iconset_sizes fs).readFile
      (iconset_dir, e.1) = _
    rcases he with rfl|rfl|rfl|rfl|rfl|rfl|rfl|rfl|rfl|rfl <;>
    · rw [readFile_writePngManifest]
      simp [iconset_sizes, List.find?]

/-- C4: after a completed run the temporary iconset working directory does not
exist: not as a directory, and with no files inside it, in all three branches
of the `iconutil` step. -/
theorem c4_iconset_cleanup (env : IconutilStatus) (fs0 : FS) (s : FPath)
    (t p : String) (img0 : Image)
    (hex : fs0.pathExists s = true)
    (hdec : (fs0.readFile s).bind FileData.decode = some img0) :
    (generate_icons env fs0 s t p).fs.dirExists iconset_dir = false ∧
    (generate_icons env fs0 s t p).fs.filesUnder iconset_dir = [] := by
  rw [generate_icons_run env fs0 s t p img0 hex hdec]
  cases env <;>
    exact ⟨FS.dirExists_rmtree_self _ _, FS.filesUnder_rmtree_self _ _⟩

/-- C5: when the `iconutil` invocation exits non-zero or the binary is
missing, the run reports the corresponding message and still completes:
`icon.icns` is absent, while all PNG and ICO files already written remain. -/
theorem c5_compiler_failure_continues (env : IconutilStatus) (fs0 : FS)
    (s : FPath) (t p : String) (img0 : Image)
    (hex : fs0.pathExists s = true)
    (hdec : (fs0.readFile s).bind FileData.decode = some img0)
    (ht : t ≠ iconset_dir) (hp : p ≠ iconset_dir) (htp : t ≠ p)
    (hicns : fs0.readFile (t, "icon.icns") = none)
    (henv : env ≠ IconutilStatus.success) :
    (generate_icons env fs0 s t p).outcome = Outcome.completed env ∧
    (generate_icons env fs0 s t p).fs.readFile (t, "icon.icns") = none ∧
    (∀ e ∈ sizes,
      (generate_icons env fs0 s t p).fs.readFile (t, e.1) =
        some (FileData.png (img0.convertRGBA.resize e.2))) ∧
    (generate_icons env fs0 s t p).fs.readFile (t, "icon.ico") =
      some (FileData.ico img0.convertRGBA icoSizes) ∧
    (generate_icons env fs0 s t p).fs.readFile (p, "favicon.ico") =
      some (FileData.ico img0.convertRGBA faviconSizes) ∧
    (env = IconutilStatus.calledProcessError →
      "Error generating icns: CalledProcessError" ∈ (generate_icons env fs0 s t p).log) ∧
    (env = IconutilStatus.fileNotFoundError →
      "iconutil not found, skipping icns generation (are you on macOS?)" ∈
        (generate_icons env fs0 s t p).log) := by
  rw [generate_icons_run env fs0 s t p img0 hex hdec]
  refine ⟨rfl, ?_, ?_, ?_, ?_, ?_, ?_⟩
  · rw [finalFS_readFile_t env fs0 _ t p _ ht htp,
      if_neg (fun hc => henv hc.1), if_neg (by decide),
      show sizes.reverse.find? (fun e => decide (e.1 = "icon.icns")) = none from by decide]
    exact hicns
  · intro e he
    simp only [sizes, List.mem_cons, List.not_mem_nil, or_false] at he
    rw [finalFS_readFile_t env fs0 _ t p _ ht htp]
    rcases he with rfl|rfl|rfl|rfl <;>
    · rw [if_neg (fun hc => absurd hc.2 (by decide)), if_neg (by decide)]
      simp [sizes, List.find?]
  · rw [finalFS_readFile_t env fs0 _ t p _ ht htp,
      if_neg (fun hc => absurd hc.2 (by decide)), if_pos rfl]
  · rw [finalFS_readFile_p env fs0 _ t p _ hp htp, if_pos rfl]
  · intro henv2
    subst henv2
    simp [runLog, sizes]
  · intro henv2
    subst henv2
    simp [runLog, sizes]

/-- C6: for a decodable source with fresh destination directories and a
successful `iconutil` step, the run produces exactly the six files `32x32.png`,
`128x128.png`, `128x128@2x.png`, `icon.png`, `icon.ico`, `icon.icns` in the
icon destination directory and exactly `favicon.ico` in the web destination
directory, and no other files in those directories. -/
theorem c6_exact_outputs (fs0 : FS) (s : FPath) (t p : String) (img0 : Image)
    (hex : fs0.pathExists s = true)
    (hdec : (fs0.readFile s).bind FileData.decode = some img0)
    (ht : t ≠ iconset_dir) (hp : p ≠ iconset_dir) (htp : t ≠ p)
    (ht0 : fs0.filesUnder t = []) (hp0 : fs0.filesUnder p = []) :
    (∀ n : String,
      (((generate_icons IconutilStatus.success fs0 s t p).fs.readFile (t, n)).isSome = true) ↔
        n ∈ ["32x32.png", "128x128.png", "128x128@2x.png", "icon.png",
             "icon.ico", "icon.icns"]) ∧
    (∀ n : String,
      (((generate_icons IconutilStatus.success fs0 s t p).fs.readFile (p, n)).isSome = true) ↔
        n ∈ ["favicon.ico"]) := by
  rw [generate_icons_run _ fs0 s t p img0 hex hdec]
  constructor
  · intro n
    rw [finalFS_readFile_t _ fs0 _ t p n ht htp]
    by_cases h1 : n = "icon.icns"
    · subst h1
      rw [if_pos ⟨rfl, rfl⟩]
      simp
    rw [if_neg (fun hc => h1 hc.2)]
    by_cases h2 : n = "icon.ico"
    · subst h2
      rw [if_pos rfl]
      simp
    rw [if_neg h2]
    cases hf : sizes.reverse.find? (fun e => decide (e.1 = n)) with
    | some e =>
      have hmem := List.mem_of_find?_eq_some hf
      have hpred := List.find?_some hf
      simp only [decide_eq_true_eq] at hpred
      rw [List.mem_reverse] at hmem
      subst hpred
      simp only [Option.isSome_some, true_iff]
      simp only [sizes, List.mem_cons, List.not_mem_nil, or_false] at hmem
      rcases hmem with rfl|rfl|rfl|rfl <;> simp
    | none =>
      rw [FS.readFile_none_of_filesUnder_nil _ _ _ ht0]
      simp only [Option.isSome_none, Bool.false_eq_true, false_iff]
      intro hn
      simp only [List.mem_cons, List.not_mem_nil, or_false] at hn
      rcases hn with rfl|rfl|rfl|rfl|rfl|rfl
      · exact absurd hf (by decide)
      · exact absurd hf (by decide)
      · exact absurd hf (by decide)
      · exact absurd hf (by decide)
      · exact h2 rfl
      · exact h1 rfl
  · intro n
    rw [finalFS_readFile_p _ fs0 _ t p n hp htp]
    by_cases h1 : n = "favicon.ico"
    · subst h1
      rw [if_pos rfl]
      simp
    · rw [if_neg h1, FS.readFile_none_of_filesUnder_nil _ _ _ hp0]
      simp [h1]

/-- C7: `icon.ico` in the icon destination directory embeds exactly the six
frame sizes 256, 128, 64, 48, 32, 16, and `favicon.ico` in the web
destination directory embeds exactly the three frame sizes 48, 32, 16. -/
theorem c7_ico_frame_sizes (env : IconutilStatus) (fs0 : FS) (s : FPath)
    (t p : String) (img0 : Image)
    (hex : fs0.pathExists s = true)
    (hdec : (fs0.readFile s).bind FileData.decode = some img0)
    (ht : t ≠ iconset_dir) (hp : p ≠ iconset_dir) (htp : t ≠ p) :
    ((generate_icons env fs0 s t p).fs.readFile (t, "icon.ico")).map FileData.frameSizes =
      some [(256, 256), (128, 128), (64, 64), (48, 48), (32, 32), (16, 16)] ∧
    ((generate_icons env fs0 s t p).fs.readFile (p, "favicon.ico")).map FileData.frameSizes =
      some [(48, 48), (32, 32), (16, 16)] := by
  rw [generate_icons_run env fs0 s t p img0 hex hdec]
  constructor
  · rw [finalFS_readFile_t env fs0 _ t p _ ht htp,
      if_neg (fun hc => absurd hc.2 (by decide)), if_pos rfl]
    rfl
  · rw [finalFS_readFile_p env fs0 _ t p _ hp htp, if_pos rfl]
    rfl

/-- C8: the resample-and-encode step is a deterministic function of the
decoded source and the manifest entry, so for a fixed source and destination
pair, running the pipeline twice yields the same PNG content for every
flat-manifest entry on both runs (the second run overwrites each PNG with the
same data), provided the first run left the source file unchanged. -/
theorem c8_idempotent_pngs (env : IconutilStatus) (fs0 : FS) (s : FPath)
    (t p : String) (img0 : Image)
    (hex : fs0.pathExists s = true)
    (hdec : (fs0.readFile s).bind FileData.decode = some img0)
    (ht : t ≠ iconset_dir) (htp : t ≠ p)
    (hsrc : (generate_icons env fs0 s t p).fs.readFile s = fs0.readFile s) :
    ∀ e ∈ sizes,
      (generate_icons env fs0 s t p).fs.readFile (t, e.1) =
        some (FileData.png (img0.convertRGBA.resize e.2)) ∧
      (generate_icons env (generate_icons env fs0 s t p).fs s t p).fs.readFile (t, e.1) =
        some (FileData.png (img0.convertRGBA.resize e.2)) := by
  have hd0 : ∃ d, fs0.readFile s = some d := by
    cases hB : fs0.readFile s with
    | none => rw [hB] at hdec; simp at hdec
    | some d => exact ⟨d, rfl⟩
  obtain ⟨d, hd⟩ := hd0
  have hex2 : (generate_icons env fs0 s t p).fs.pathExists s = true :=
    FS.pathExists_of_readFile_some _ _ d (by rw [hsrc, hd])
  have hdec2 : ((generate_icons env fs0 s t p).fs.readFile s).bind FileData.decode =
      some img0 := by
    rw [hsrc]
    exact hdec
  intro e he
  simp only [sizes, List.mem_cons, List.not_mem_nil, or_false] at he
  constructor
  · rw [generate_icons_run env fs0 s t p img0 hex hdec,
      finalFS_readFile_t env fs0 _ t p _ ht htp]
    rcases he with rfl|rfl|rfl|rfl <;>
    · rw [if_neg (fun hc => absurd hc.2 (by decide)), if_neg (by decide)]
      simp [sizes, List.find?]
  · rw [generate_icons_run env _ s t p img0 hex2 hdec2,
      finalFS_readFile_t env _ _ t p _ ht htp]
    rcases he with rfl|rfl|rfl|rfl <;>
    · rw [if_neg (fun hc => absurd hc.2 (by decide)), if_neg (by decide)]
      simp [sizes, List.find?]

/-- C9: if the directory `ProjectLens.iconset` already exists before the call
(holding a file the operation did not create), the operation reuses it —
`os.makedirs` with `exist_ok` is a no-op on it — completes, and on return has
deleted the directory together with its pre-existing contents. -/
theorem c9_preexisting_iconset_destroyed (env : IconutilStatus) (fs0 : FS)
    (s : FPath) (t p : String) (img0 : Image) (n : String) (d : FileData)
    (hex : fs0.pathExists s = true)
    (hdec : (fs0.readFile s).bind FileData.decode = some img0)
    (hdir : fs0.dirExists iconset_dir = true)
    (_hfile : fs0.readFile (iconset_dir, n) = some d) :
    fs0.makedirs iconset_dir = fs0 ∧
    (generate_icons env fs0 s t p).outcome = Outcome.completed env ∧
    (generate_icons env fs0 s t p).fs.readFile (iconset_dir, n) = none ∧
    (generate_icons env fs0 s t p).fs.dirExists iconset_dir = false := by
  have hc : fs0.dirs.contains iconset_dir = true := hdir
  refine ⟨?_, ?_, ?_, ?_⟩
  · unfold FS.makedirs
    rw [hc, if_pos rfl]
  · rw [generate_icons_run env fs0 s t p img0 hex hdec]
  · rw [generate_icons_run env fs0 s t p img0 hex hdec]
    cases env <;> exact FS.readFile_rmtree_self _ _ _
  · rw [generate_icons_run env fs0 s t p img0 hex hdec]
    cases env <;> exact FS.dirExists_rmtree_self _ _

/-- C10: no dimension validation: for a source image of any width, height and
mode (square or not, smaller than 1024×1024 or not) the run completes, every
resample is forced to exactly the requested manifest size, each flat PNG
output has exactly its manifest dimensions, and each iconset entry written by
the populate loop has exactly its manifest dimensions. -/
theorem c10_no_dimension_validation (env : IconutilStatus) (fs0 : FS)
    (s : FPath) (t p : String) (w h : Nat) (m : Mode) (c : Nat)
    (hex : fs0.pathExists s = true)
    (hdec : (fs0.readFile s).bind FileData.decode = some (Image.mk w h m c))
    (ht : t ≠ iconset_dir) (htp : t ≠ p) :
    (generate_icons env fs0 s t p).outcome = Outcome.completed env ∧
    (∀ sz : Nat × Nat,
      ((Image.mk w h m c).resize sz).width = sz.1 ∧
      ((Image.mk w h m c).resize sz).height = sz.2) ∧
    (∀ e ∈ sizes, ∃ i : Image,
      (generate_icons env fs0 s t p).fs.readFile (t, e.1) =
        some (FileData.png i) ∧ i.width = e.2.1 ∧ i.height = e.2.2) ∧
    (∀ e ∈ iconset_sizes, ∀ fs1 : FS,
      (populateIconset ((Image.mk w h m c).convertRGBA) fs1).readFile
          (iconset_dir, e.1) =
        some (FileData.png (((Image.mk w h m c).convertRGBA).resize e.2)) ∧
      (((Image.mk w h m c).convertRGBA).resize e.2).width = e.2.1 ∧
      (((Image.mk w h m c).convertRGBA).resize e.2).height = e.2.2) := by
  refine ⟨?_, fun sz => ⟨rfl, rfl⟩, ?_, ?_⟩
  · rw [generate_icons_run env fs0 s t p _ hex hdec]
  · intro e he
    rw [generate_icons_run env fs0 s t p _ hex hdec,
      finalFS_readFile_t env fs0 _ t p _ ht htp]
    simp only [sizes, List.mem_cons, List.not_mem_nil, or_false] at he
    rcases he with rfl|rfl|rfl|rfl
    · rw [if_neg (fun hc => absurd hc.2 (by decide)), if_neg (by decide)]
      exact ⟨((Image.mk w h m c).convertRGBA).resize (32, 32),
        by simp [sizes, List.find?], rfl, rfl⟩
    · rw [if_neg (fun hc => absurd hc.2 (by decide)), if_neg (by decide)]
      exact ⟨((Image.mk w h m c).convertRGBA).resize (128, 128),
        by simp [sizes, List.find?], rfl, rfl⟩
    · rw [if_neg (fun hc => absurd hc.2 (by decide)), if_neg (by decide)]
      exact ⟨((Image.mk w h m c).convertRGBA).resize (256, 256),
        by simp [sizes, List.find?], rfl, rfl⟩
    · rw [if_neg (fun hc => absurd hc.2 (by decide)), if_neg (by decide)]
      exact ⟨((Image.mk w h m c).convertRGBA).resize (512, 512),
        by simp [sizes, List.find?], rfl, rfl⟩
  · intro e he fs1
    refine ⟨?_, ?_, ?_⟩
    · show (writePngManifest _ iconset_dir iconset_sizes fs1).readFile
        (iconset_dir, e.1) = _
      simp only [iconset_sizes, List.mem_cons, List.not_mem_nil, or_false] at he
      rcases he with rfl|rfl|rfl|rfl|rfl|rfl|rfl|rfl|rfl|rfl <;>
      · rw [readFile_writePngManifest]
        simp [iconset_sizes, List.find?]
    · rfl
    · rfl

theorem c3_witness :
    (FS.mk [] []).filesUnder iconset_dir = [] ∧
    ((∀ n : String,
      (((populateIconset sampleImage (FS.mk [] [])).readFile (iconset_dir, n)).isSome = true) ↔
        n ∈ iconset_sizes.map (fun e => e.1)) ∧
    (∀ e ∈ iconset_sizes,
      (populateIconset sampleImage (FS.mk [] [])).readFile (iconset_dir, e.1) =
        some (FileData.png (sampleImage.resize e.2))) ∧
    iconset_sizes.length = 10 ∧
    iconset_sizes.map (fun e => e.1) =
      ["icon_16x16.png", "icon_16x16@2x.png", "icon_32x32.png",
       "icon_32x32@2x.png", "icon_128x128.png", "icon_128x128@2x.png",
       "icon_256x256.png", "icon_256x256@2x.png", "icon_512x512.png",
       "icon_512x512@2x.png"] ∧
    (iconset_sizes.map (fun e => e.2.1)).dedup = [16, 32, 64, 128, 256, 512, 1024] ∧
    (iconset_sizes.find? (fun e => e.1 = "icon_16x16@2x.png")).map (fun e => e.2) =
      some (32, 32) ∧
    (iconset_sizes.find? (fun e => e.1 = "icon_32x32.png")).map (fun e => e.2) =
      some (32, 32) ∧
    (iconset_sizes.find? (fun e => e.1 = "icon_256x256@2x.png")).map (fun e => e.2) =
      some (512, 512)) :=
  ⟨by decide, c3_iconset_population sampleImage (FS.mk [] []) (by decide)⟩

theorem c4_witness :
    sampleFS.pathExists ("assets", "logo.png") = true ∧
    (sampleFS.readFile ("assets", "logo.png")).bind FileData.decode = some sampleImage ∧
    ((generate_icons IconutilStatus.calledProcessError sampleFS ("assets", "logo.png")
        "icons" "public").fs.dirExists iconset_dir = false ∧
      (generate_icons IconutilStatus.calledProcessError sampleFS ("assets", "logo.png")
        "icons" "public").fs.filesUnder iconset_dir = []) :=
  ⟨by decide, by decide,
    c4_iconset_cleanup IconutilStatus.calledProcessError sampleFS ("assets", "logo.png")
      "icons" "public" sampleImage (by decide) (by decide)⟩

theorem c5_witness :
    sampleFS.pathExists ("assets", "logo.png") = true ∧
    (sampleFS.readFile ("assets", "logo.png")).bind FileData.decode = some sampleImage ∧
    ("icons" : String) ≠ iconset_dir ∧
    ("public" : String) ≠ iconset_dir ∧
    ("icons" : String) ≠ "public" ∧
    sampleFS.readFile ("icons", "icon.icns") = none ∧
    IconutilStatus.calledProcessError ≠ IconutilStatus.success ∧
    ((generate_icons IconutilStatus.calledProcessError sampleFS ("assets", "logo.png")
        "icons" "public").outcome = Outcome.completed IconutilStatus.calledProcessError ∧
      (generate_icons IconutilStatus.calledProcessError sampleFS ("assets", "logo.png")
        "icons" "public").fs.readFile ("icons", "icon.icns") = none ∧
      (∀ e ∈ sizes,
        (generate_icons IconutilStatus.calledProcessError sampleFS ("assets", "logo.png")
          "icons" "public").fs.readFile ("icons", e.1) =
          some (FileData.png (sampleImage.convertRGBA.resize e.2))) ∧
      (generate_icons IconutilStatus.calledProcessError sampleFS ("assets", "logo.png")
        "icons" "public").fs.readFile ("icons", "icon.ico") =
        some (FileData.ico sampleImage.convertRGBA icoSizes) ∧
      (generate_icons IconutilStatus.calledProcessError sampleFS ("assets", "logo.png")
        "icons" "public").fs.readFile ("public", "favicon.ico") =
        some (FileData.ico sampleImage.convertRGBA faviconSizes) ∧
      (IconutilStatus.calledProcessError = IconutilStatus.calledProcessError →
        "Error generating icns: CalledProcessError" ∈
          (generate_icons IconutilStatus.calledProcessError sampleFS ("assets", "logo.png")
            "icons" "public").log) ∧
      (IconutilStatus.calledProcessError = IconutilStatus.fileNotFoundError →
        "iconutil not found, skipping icns generation (are you on macOS?)" ∈
          (generate_icons IconutilStatus.calledProcessError sampleFS ("assets", "logo.png")
            "icons" "public").log)) :=
  ⟨by decide, by decide, by decide, by decide, by decide, by decide, by decide,
    c5_compiler_failure_continues IconutilStatus.calledProcessError sampleFS
      ("assets", "logo.png") "icons" "public" sampleImage (by decide) (by decide)
      (by decide) (by decide) (by decide) (by decide) (by decide)⟩

theorem c6_witness :
    sampleFS.pathExists ("assets", "logo.png") = true ∧
    (sampleFS.readFile ("assets", "logo.png")).bind FileData.decode = some sampleImage ∧
    ("icons" : String) ≠ iconset_dir ∧
    ("public" : String) ≠ iconset_dir ∧
    ("icons" : String) ≠ "public" ∧
    sampleFS.filesUnder "icons" = [] ∧
    sampleFS.filesUnder "public" = [] ∧
    ((∀ n : String,
      (((generate_icons IconutilStatus.success sampleFS ("assets", "logo.png")
          "icons" "public").fs.readFile ("icons", n)).isSome = true) ↔
        n ∈ ["32x32.png", "128x128.png", "128x128@2x.png", "icon.png",
             "icon.ico", "icon.icns"]) ∧
    (∀ n : String,
      (((generate_icons IconutilStatus.success sampleFS ("assets", "logo.png")
          "icons" "public").fs.readFile ("public", n)).isSome = true) ↔
        n ∈ ["favicon.ico"])) :=
  ⟨by decide, by decide, by decide, by decide, by decide, by decide, by decide,
    c6_exact_outputs sampleFS ("assets", "logo.png") "icons" "public" sampleImage
      (by decide) (by decide) (by decide) (by decide) (by decide) (by decide) (by decide)⟩

theorem c7_witness :
    sampleFS.pathExists ("assets", "logo.png") = true ∧
    (sampleFS.readFile ("assets", "logo.png")).bind FileData.decode = some sampleImage ∧
    ("icons" : String) ≠ iconset_dir ∧
    ("public" : String) ≠ iconset_dir ∧
    ("icons" : String) ≠ "public" ∧
    (((generate_icons IconutilStatus.success sampleFS ("assets", "logo.png")
        "icons" "public").fs.readFile ("icons", "icon.ico")).map FileData.frameSizes =
      some [(256, 256), (128, 128), (64, 64), (48, 48), (32, 32), (16, 16)] ∧
    ((generate_icons IconutilStatus.success sampleFS ("assets", "logo.png")
        "icons" "public").fs.readFile ("public", "favicon.ico")).map FileData.frameSizes =
      some [(48, 48), (32, 32), (16, 16)]) :=
  ⟨by decide, by decide, by decide, by decide, by decide,
    c7_ico_frame_sizes IconutilStatus.success sampleFS ("assets", "logo.png")
      "icons" "public" sampleImage (by decide) (by decide) (by decide) (by decide)
      (by decide)⟩

theorem c8_witness :
    sampleFS.pathExists ("assets", "logo.png") = true ∧
    (sampleFS.readFile ("assets", "logo.png")).bind FileData.decode = some sampleImage ∧
    ("icons" : String) ≠ iconset_dir ∧
    ("icons" : String) ≠ "public" ∧
    (generate_icons IconutilStatus.success sampleFS ("assets", "logo.png")
      "icons" "public").fs.readFile ("assets", "logo.png") =
      sampleFS.readFile ("assets", "logo.png") ∧
    ∀ e ∈ sizes,
      (generate_icons IconutilStatus.success sampleFS ("assets", "logo.png")
        "icons" "public").fs.readFile ("icons", e.1) =
        some (FileData.png (sampleImage.convertRGBA.resize e.2)) ∧
      (generate_icons IconutilStatus.success
        (generate_icons IconutilStatus.success sampleFS ("assets", "logo.png")
          "icons" "public").fs ("assets", "logo.png")
        "icons" "public").fs.readFile ("icons", e.1) =
        some (FileData.png (sampleImage.convertRGBA.resize e.2)) :=
  ⟨by decide, by decide, by decide, by decide, by decide,
    c8_idempotent_pngs IconutilStatus.success sampleFS ("assets", "logo.png")
      "icons" "public" sampleImage (by decide) (by decide) (by decide) (by decide)
      (by decide)⟩

/-- A starting filesystem in which the iconset working directory already
exists and holds a stale file the pipeline did not create. -/
def staleFS : FS :=
  { files := [((("ProjectLens.iconset", "stale.png") : FPath), FileData.raw [1]),
              ((("assets", "logo.png") : FPath), FileData.png sampleImage)],
    dirs := ["ProjectLens.iconset"] }

theorem c9_witness :
    staleFS.pathExists ("assets", "logo.png") = true ∧
    (staleFS.readFile ("assets", "logo.png")).bind FileData.decode = some sampleImage ∧
    staleFS.dirExists iconset_dir = true ∧
    staleFS.readFile (iconset_dir, "stale.png") = some (FileData.raw [1]) ∧
    (staleFS.makedirs iconset_dir = staleFS ∧
      (generate_icons IconutilStatus.success staleFS ("assets", "logo.png")
        "icons" "public").outcome = Outcome.completed IconutilStatus.success ∧
      (generate_icons IconutilStatus.success staleFS ("assets", "logo.png")
        "icons" "public").fs.readFile (iconset_dir, "stale.png") = none ∧
      (generate_icons IconutilStatus.success staleFS ("assets", "logo.png")
        "icons" "public").fs.dirExists iconset_dir = false) :=
  ⟨by decide, by decide, by decide, by decide,
    c9_preexisting_iconset_destroyed IconutilStatus.success staleFS
      ("assets", "logo.png") "icons" "public" sampleImage "stale.png"
      (FileData.raw [1]) (by decide) (by decide) (by decide) (by decide)⟩

/-- A non-square source image smaller than 1024×1024, for exercising the
no-validation path. -/
def oblongImage : Image :=
  { width := 300, height := 200, mode := Mode.other, content := 5 }

/-- A starting filesystem holding only the non-square source. -/
def oblongFS : FS :=
  { files := [((("assets", "logo.png") : FPath), FileData.png oblongImage)], dirs := [] }

theorem c10_witness :
    oblongFS.pathExists ("assets", "logo.png") = true ∧
    (oblongFS.readFile ("assets", "logo.png")).bind FileData.decode =
      some (Image.mk 300 200 Mode.other 5) ∧
    ("icons" : String) ≠ iconset_dir ∧
    ("icons" : String) ≠ "public" ∧
    ((generate_icons IconutilStatus.fileNotFoundError oblongFS ("assets", "logo.png")
        "icons" "public").outcome = Outcome.completed IconutilStatus.fileNotFoundError ∧
    (∀ sz : Nat × Nat,
      ((Image.mk 300 200 Mode.other 5).resize sz).width = sz.1 ∧
      ((Image.mk 300 200 Mode.other 5).resize sz).height = sz.2) ∧
    (∀ e ∈ sizes, ∃ i : Image,
      (generate_icons IconutilStatus.fileNotFoundError oblongFS ("assets", "logo.png")
        "icons" "public").fs.readFile ("icons", e.1) =
        some (FileData.png i) ∧ i.width = e.2.1 ∧ i.height = e.2.2) ∧
    (∀ e ∈ iconset_sizes, ∀ fs1 : FS,
      (populateIconset ((Image.mk 300 200 Mode.other 5).convertRGBA) fs1).readFile
          (iconset_dir, e.1) =
        some (FileData.png (((Image.mk 300 200 Mode.other 5).convertRGBA).resize e.2)) ∧
      (((Image.mk 300 200 Mode.other 5).convertRGBA).resize e.2).width = e.2.1 ∧
      (((Image.mk 300 200 Mode.other 5).convertRGBA).resize e.2).height = e.2.2)) :=
  ⟨by decide, by decide, by decide, by decide,
    c10_no_dimension_validation IconutilStatus.fileNotFoundError oblongFS
      ("assets", "logo.png") "icons" "public" 300 200 Mode.other 5
      (by decide) (by decide) (by decide) (by decide)⟩
